import Mathlib

/-!
Verification development for the BirdWatcher monitoring appliance.

Shallow embedding of the pipeline under `src/`:

* `detection_stats.py` (`DetectionStats`): an insertion-ordered dictionary
  model (`pyGet` / `pySet`, the semantics of a Python `dict`), the statistics
  state, `load_stats`, `save_stats`, `record_motion_event`,
  `record_detection`, `get_hourly_breakdown`.
* `camera_handler.py` (`MotionDetector`): `detect_motion` and the body of
  `_monitor_loop` (cooldown gating of triggers).
* `ai_detector_simple.py` (`SimpleAIDetector`): `_analyze_bird_features` and
  the filtering part of `detect_objects`.
* `main_monitor_with_stats.py`: the `ai_confidence_threshold` entry of
  `load_config`.

Modelling conventions: timestamps used by the statistics code are modelled at
hour resolution as natural numbers (an absolute hour count); the `strftime`
key `%Y-%m-%d_%H` is injective on absolute hours and is modelled by the hour
count itself, the label `%H:00` by the hour count modulo 24, and the day key
`%Y-%m-%d` by the hour count divided by 24.  Floating-point quantities
(confidences, contour areas, wall-clock seconds) are modelled as rationals.
External library calls (OpenCV background subtraction and histogram
statistics, YOLO inference, the file system, `np.random`) are modelled as
explicit inputs of the functions that consume their results; Python
exceptions become `Option`-valued error components.
-/

namespace BirdWatcher

/-- Lookup in an insertion-ordered association list, the semantics of reading
a Python `dict`: the first binding of the key, `none` when the key is absent
(a `KeyError` at the call site that demanded the key). -/
def pyGet {κ α : Type} [DecidableEq κ] : List (κ × α) → κ → Option α
  | [], _ => none
  | (k, v) :: t, key => if k = key then some v else pyGet t key

/-- Assignment `d[key] = val` on an insertion-ordered association list, the
semantics of writing a Python `dict`: an existing key keeps its position and
gets the new value, a new key is appended at the end. -/
def pySet {κ α : Type} [DecidableEq κ] : List (κ × α) → κ → α → List (κ × α)
  | [], key, val => [(key, val)]
  | (k, v) :: t, key, val =>
      if k = key then (k, val) :: t else (k, v) :: pySet t key val

/-- `dict.update(src)` / a `for k, v in src.items(): d[k] = v` loop:
assign every binding of `src` into `d` in iteration order. -/
def pyUpdate {κ α : Type} [DecidableEq κ] (d src : List (κ × α)) :
    List (κ × α) :=
  src.foldl (fun acc kv => pySet acc kv.1 kv.2) d

/-- Python `l[-n:]`: the last `n` elements of a list. -/
def pyTakeLast {α : Type} (l : List α) (n : Nat) : List α :=
  l.drop (l.length - n)

/-- The fixed per-class counter dictionary
`{'person': 0, 'dog': 0, 'bird': 0}` that `DetectionStats.__init__` installs
as the value of every hourly/daily bucket (the `defaultdict` default) — its
key set never changes, so it is embedded as a record. -/
structure ClassCounts where
  person : Nat
  dog : Nat
  bird : Nat
  deriving Repr, DecidableEq

/-- The all-zero bucket `{'person': 0, 'dog': 0, 'bird': 0}`. -/
def zeroCounts : ClassCounts := ⟨0, 0, 0⟩

/-- `bucket[obj_type] += 1` on a fixed-key per-class bucket.  The class has
already been validated against `detections_by_type` (whose key set is
`person`/`dog`/`bird` in every state the program constructs), so the plain
`dict` `KeyError` branch for any other class is unreachable here; the
catch-all arm is never exercised by the embedded code paths. -/
def bumpCounts (c : ClassCounts) (cls : String) : ClassCounts :=
  if cls = "person" then { c with person := c.person + 1 }
  else if cls = "dog" then { c with dog := c.dog + 1 }
  else if cls = "bird" then { c with bird := c.bird + 1 }
  else c

/-- The fixed-key dictionary `confidence_stats` of per-class confidence
sample lists (keys `person`/`dog`/`bird`, installed by `__init__`). -/
structure ConfLists where
  person : List ℚ
  dog : List ℚ
  bird : List ℚ
  deriving Repr, DecidableEq

/-- `confidence_stats[obj_type].append(confidence)`; as in `bumpCounts`, the
class was already validated against `detections_by_type`. -/
def appendConf (c : ConfLists) (cls : String) (x : ℚ) : ConfLists :=
  if cls = "person" then { c with person := c.person ++ [x] }
  else if cls = "dog" then { c with dog := c.dog ++ [x] }
  else if cls = "bird" then { c with bird := c.bird ++ [x] }
  else c

/-- One entry of `detection_log` (`detection_stats.py` lines 123-129):
timestamp, class, confidence, and the species key when the detection dict
carries one. -/
structure LogEntry where
  timestamp : Nat
  type : String
  confidence : ℚ
  species : Option String
  deriving Repr, DecidableEq

/-- One detection record as consumed by `record_detection`: the `class`,
`confidence` and optional `species` keys.  The `bbox`/`area` keys and the
dog-identity keys present in the artifact are not read by any embedded code
path and are elided. -/
structure Detection where
  cls : String
  confidence : ℚ
  species : Option String
  deriving Repr, DecidableEq

/-- The detection-event dictionary produced by `detect_objects` as consumed
by `record_detection`: its own `timestamp` field and the `detections` list
(the derived boolean flags are not read by `record_detection` and are
elided). -/
structure Event where
  timestamp : Nat
  detections : List Detection
  deriving Repr, DecidableEq

/-- The in-memory `self.stats` dictionary of `DetectionStats`
(`detection_stats.py` lines 18-36).  `session_start` is an opaque wall-clock
string never read by the embedded code paths and is elided. -/
structure Stats where
  totalMotionEvents : Nat
  totalDetections : Nat
  detectionsByType : List (String × Nat)
  birdSpecies : List (String × Nat)
  confidenceStats : ConfLists
  hourlyStats : List (Nat × ClassCounts)
  dailyStats : List (Nat × ClassCounts)
  detectionLog : List LogEntry
  deriving Repr, DecidableEq

/-- The freshly-initialized session state built by `DetectionStats.__init__`
before `load_stats` runs. -/
def freshStats : Stats :=
  { totalMotionEvents := 0
    totalDetections := 0
    detectionsByType := [("person", 0), ("dog", 0), ("bird", 0)]
    birdSpecies := []
    confidenceStats := ⟨[], [], []⟩
    hourlyStats := []
    dailyStats := []
    detectionLog := [] }

/-- The persisted stats store as written by `save_stats`
(`detection_stats.py` lines 69-80).  The `session_start` and `last_updated`
wall-clock strings are opaque and elided. -/
structure SavedStore where
  totalMotionEvents : Nat
  totalDetections : Nat
  detectionsByType : List (String × Nat)
  birdSpecies : List (String × Nat)
  confidenceStats : ConfLists
  hourlyStats : List (Nat × ClassCounts)
  dailyStats : List (Nat × ClassCounts)
  detectionLog : List LogEntry
  deriving Repr, DecidableEq

/-- `save_stats` (lines 65-86): the document written to disk — the full
aggregate with the detection log trimmed to its last 100 entries.  The
surrounding `try`/`except` (a write failure is only printed) is modelled at
the call sites by a `diskOk` flag selecting whether the write lands. -/
def save_stats (st : Stats) : SavedStore :=
  { totalMotionEvents := st.totalMotionEvents
    totalDetections := st.totalDetections
    detectionsByType := st.detectionsByType
    birdSpecies := st.birdSpecies
    confidenceStats := st.confidenceStats
    hourlyStats := st.hourlyStats
    dailyStats := st.dailyStats
    detectionLog := pyTakeLast st.detectionLog 100 }

/-- `load_stats` (lines 39-63).  `saved = none` models a missing stats file
(or a failed parse, which the `except` arm also reduces to "leave the fresh
state alone").  Only four fields are read back: `detections_by_type` is
copied binding-by-binding, `bird_species` via `dict.update`, and the two
totals are overwritten; `confidence_stats`, `hourly_stats`, `daily_stats`
and `detection_log` are not touched. -/
def load_stats (st : Stats) (saved : Option SavedStore) : Stats :=
  match saved with
  | none => st
  | some s =>
      { st with
        detectionsByType := pyUpdate st.detectionsByType s.detectionsByType
        birdSpecies := pyUpdate st.birdSpecies s.birdSpecies
        totalMotionEvents := s.totalMotionEvents
        totalDetections := s.totalDetections }

/-- `DetectionStats.__init__` (lines 14-37): build the fresh session state,
then `load_stats` from the persisted store when one exists. -/
def init_stats (saved : Option SavedStore) : Stats :=
  load_stats freshStats saved

/-- `record_motion_event` (lines 88-91): bump the motion counter, then
attempt a synchronous save.  The pair returned is the in-memory state and
the document that reached the disk (`none` when the write failed — the
failure is only printed, never raised). -/
def record_motion_event (st : Stats) (diskOk : Bool) :
    Stats × Option SavedStore :=
  let st' := { st with totalMotionEvents := st.totalMotionEvents + 1 }
  (st', if diskOk then some (save_stats st') else none)

/-- The body of the `for detection in detections['detections']` loop of
`record_detection` (lines 98-131) for a single detection, at wall-clock hour
`nowHour` (the `datetime.now()` read on line 95).  The first statement,
`detections_by_type[obj_type] += 1`, raises `KeyError` for a class outside
the dictionary's key set and then nothing of this iteration has happened;
otherwise the iteration's updates all land.  The updates touch pairwise
distinct fields and each reads only state it does not overwrite, so the
sequential statements are embedded as one record update.  The error
component carries the `KeyError`, `none` meaning the iteration completed. -/
def recordOne (nowHour : Nat) (st : Stats) (d : Detection) :
    Stats × Option String :=
  match pyGet st.detectionsByType d.cls with
  | none => (st, some ("KeyError: " ++ d.cls))
  | some c =>
      ({ totalMotionEvents := st.totalMotionEvents
         totalDetections := st.totalDetections + 1
         detectionsByType := pySet st.detectionsByType d.cls (c + 1)
         birdSpecies :=
           if d.cls = "bird" then
             match d.species with
             | some sp =>
                 pySet st.birdSpecies sp
                   ((pyGet st.birdSpecies sp).getD 0 + 1)
             | none => st.birdSpecies
           else st.birdSpecies
         confidenceStats := appendConf st.confidenceStats d.cls d.confidence
         hourlyStats :=
           pySet st.hourlyStats nowHour
             (bumpCounts ((pyGet st.hourlyStats nowHour).getD zeroCounts)
               d.cls)
         dailyStats :=
           pySet st.dailyStats (nowHour / 24)
             (bumpCounts ((pyGet st.dailyStats (nowHour / 24)).getD zeroCounts)
               d.cls)
         detectionLog :=
           st.detectionLog ++ [⟨nowHour, d.cls, d.confidence, d.species⟩] },
       none)

/-- The detection loop of `record_detection`: process detections in order;
an uncaught `KeyError` aborts the loop, leaving the mutations of the earlier
iterations in place. -/
def recordLoop (nowHour : Nat) (st : Stats) :
    List Detection → Stats × Option String
  | [] => (st, none)
  | d :: rest =>
      match recordOne nowHour st d with
      | (st', none) => recordLoop nowHour st' rest
      | (st', some e) => (st', some e)

/-- The outcome of `record_detection`: the in-memory state, the document
that reached the disk (if any), and the exception that escaped (if any). -/
structure RecordResult where
  state : Stats
  written : Option SavedStore
  err : Option String
  deriving Repr, DecidableEq

/-- `record_detection` (lines 93-133) at wall-clock hour `nowHour`: run the
per-detection loop, then `save_stats` — which is skipped entirely when a
`KeyError` escaped the loop, and whose own write failure (`diskOk = false`)
is only printed.  Note that the hourly/daily keys come from `nowHour`, the
`datetime.now()` of line 95, not from `ev.timestamp`. -/
def record_detection (nowHour : Nat) (st : Stats) (ev : Event)
    (diskOk : Bool) : RecordResult :=
  match recordLoop nowHour st ev.detections with
  | (st', none) =>
      ⟨st', if diskOk then some (save_stats st') else none, none⟩
  | (st', some e) => ⟨st', none, some e⟩

/-- `get_hourly_breakdown` (lines 166-181) with the wall clock at absolute
hour `now`: for `i` in `range(hours)`, assign the bucket of absolute hour
`now - i` (default all-zero) into the breakdown dictionary under the label
`%H:00`, i.e. under `(now - i) % 24`. -/
def get_hourly_breakdown (hours now : Nat)
    (hourlyStats : List (Nat × ClassCounts)) : List (Nat × ClassCounts) :=
  (List.range hours).foldl
    (fun breakdown i =>
      pySet breakdown ((now - i) % 24)
        ((pyGet hourlyStats (now - i)).getD zeroCounts))
    []

/-- One call recorded against the aggregator: a `record_detection` (with its
wall-clock hour, event and disk outcome) or a `record_motion_event`. -/
inductive StatsOp where
  | det (nowHour : Nat) (ev : Event) (diskOk : Bool)
  | motion (diskOk : Bool)
  deriving Repr, DecidableEq

/-- Apply one aggregator call, keeping the in-memory state (also when the
call raised or its save failed — the Python object was mutated in place). -/
def applyOp (st : Stats) : StatsOp → Stats
  | .det nowHour ev diskOk => (record_detection nowHour st ev diskOk).state
  | .motion diskOk => (record_motion_event st diskOk).1

/-- Run a sequence of aggregator calls. -/
def runOps (st : Stats) (ops : List StatsOp) : Stats :=
  ops.foldl applyOp st

/-- The sum of the per-class counters `person + dog + bird` of
`detections_by_type`. -/
def sumClasses (l : List (String × Nat)) : Nat :=
  (pyGet l "person").getD 0 + (pyGet l "dog").getD 0 + (pyGet l "bird").getD 0

/-- The counter invariant of the aggregate. -/
def statsInv (st : Stats) : Prop :=
  st.totalDetections = sumClasses st.detectionsByType

/-- The canonical shape of `detections_by_type`: exactly the three bindings
installed by `__init__`, in their insertion order. -/
def byTypeShape (l : List (String × Nat)) : Prop :=
  ∃ a b c, l = [("person", a), ("dog", b), ("bird", c)]

/-- A persisted store is well-formed when its per-class counter dictionary
has the canonical three-key shape and its total matches the counters — which
`save_stats` guarantees for every state the program constructs. -/
def SavedOK : Option SavedStore → Prop
  | none => True
  | some s => byTypeShape s.detectionsByType ∧
      s.totalDetections = sumClasses s.detectionsByType

/-- `MotionDetector.detect_motion` (`camera_handler.py` lines 118-155).
The OpenCV pipeline (colour conversion, blur, background subtraction,
contour extraction) is external; its outcome for a frame is the input:
`some areas` is the list of contour areas found, `none` models an exception
inside the `try` block (the `except` arm returns `False`).  The function
returns `True` exactly when some contour area exceeds `min_area`; it
consults no warm-up or frame-count state — `self.min_area` is the only
detector attribute it reads. -/
def detect_motion (min_area : ℚ) (frameAnalysis : Option (List ℚ)) : Bool :=
  match frameAnalysis with
  | none => false
  | some areas => areas.any (fun a => min_area < a)

/-- One low-res frame as seen by `_monitor_loop`: the `time.time()` value
current while it is processed, and the outcome of the OpenCV motion
analysis (see `detect_motion`). -/
structure Frame where
  time : ℚ
  analysis : Option (List ℚ)
  deriving Repr, DecidableEq

/-- One iteration of `MotionDetector._monitor_loop` (lines 186-210) on the
state `(last_motion_time, recorded)` where `recorded` collects every value
stored into `last_motion_time` by the trigger path: if the frame shows
motion and the cooldown has elapsed (`current_time - last_motion_time >
motion_cooldown`, strict), record the trigger timestamp; otherwise leave the
state alone. -/
def monitorStep (min_area motion_cooldown : ℚ) (st : ℚ × List ℚ)
    (f : Frame) : ℚ × List ℚ :=
  if detect_motion min_area f.analysis then
    if f.time - st.1 > motion_cooldown then (f.time, st.2 ++ [f.time])
    else st
  else st

/-- `_monitor_loop` over a finite frame sequence, from the initial state
`last_motion_time = 0` set in `__init__` (line 33), returning the final
`last_motion_time` and the list of recorded trigger timestamps. -/
def monitorRun (min_area motion_cooldown : ℚ) (frames : List Frame) :
    ℚ × List ℚ :=
  frames.foldl (monitorStep min_area motion_cooldown) (0, [])

/-- `SimpleAIDetector.bird_species_rules` (`ai_detector_simple.py` lines
43-51). -/
def bird_species_rules : List (String × List String) :=
  [("large_dark", ["Crow", "Raven", "Blackbird"]),
   ("large_brown", ["Hawk", "Eagle", "Owl"]),
   ("medium_red", ["Cardinal", "Robin"]),
   ("medium_blue", ["Blue Jay", "Bluebird"]),
   ("medium_brown", ["Sparrow", "Finch"]),
   ("small_any", ["Wren", "Chickadee", "Nuthatch"]),
   ("unknown", ["Unknown Bird"])]

/-- `np.random.choice(l)` with the random draw fixed: pick the element at
index `pick % len(l)`. -/
def npChoice (pick : Nat) (l : List String) : String :=
  l.getD (pick % l.length) "Unknown"

/-- `SimpleAIDetector._analyze_bird_features` (lines 256-316).  The OpenCV
histogram statistics of the cropped region are external inputs:
`sizeZero` is `bird_image.size == 0`, `dominantHue` the `argmax` of the hue
histogram, `avgSaturation`/`avgBrightness` the weighted averages of the
saturation/value histograms; `pick` fixes the `np.random.choice` draw.  The
`except` arm (an OpenCV failure would return "Unknown") is outside the
modelled inputs. -/
def analyze_bird_features (sizeZero : Bool) (bbox_area : ℚ)
    (dominantHue : Nat) (avgSaturation avgBrightness : ℚ) (pick : Nat) :
    String :=
  if sizeZero then "Unknown"
  else
    let size_category : String :=
      if bbox_area > 40000 then "large"
      else if bbox_area > 15000 then "medium"
      else "small"
    let color_category : String :=
      if avgBrightness < 80 then "dark"
      else if dominantHue < 15 ∨ dominantHue > 165 then "red"
      else if 90 < dominantHue ∧ dominantHue < 130 then "blue"
      else if avgSaturation < 100 then "brown"
      else "other"
    if size_category = "large" then
      if color_category = "dark" then
        npChoice pick ((pyGet bird_species_rules "large_dark").getD [])
      else if color_category = "brown" ∨ color_category = "other" then
        npChoice pick ((pyGet bird_species_rules "large_brown").getD [])
      else "Large Bird"
    else if size_category = "medium" then
      if color_category = "red" then
        npChoice pick ((pyGet bird_species_rules "medium_red").getD [])
      else if color_category = "blue" then
        npChoice pick ((pyGet bird_species_rules "medium_blue").getD [])
      else if color_category = "brown" ∨ color_category = "other" then
        npChoice pick ((pyGet bird_species_rules "medium_brown").getD [])
      else "Medium Bird"
    else
      npChoice pick ((pyGet bird_species_rules "small_any").getD [])

/-- `SimpleAIDetector.target_classes` (lines 36-40): the YOLO class-id
dictionary whose key set is the fixed interest set. -/
def target_classes : List (String × Nat) :=
  [("person", 0), ("dog", 16), ("bird", 14)]

/-- One raw YOLO box as returned by `self.yolo_model(image, conf=0.3)`
(line 337) — the candidate's class name and confidence, together with the
external data the per-class secondary analysis of its cropped region would
consume (`regionEmpty` is whether the crop is empty, the histogram
statistics and the random draw feed `analyze_bird_features`).  The YOLO
call itself is external; the `conf=0.3` literal it is given is
`yolo_conf_threshold` below. -/
structure RawBox where
  cls : String
  conf : ℚ
  regionEmpty : Bool
  area : ℚ
  dominantHue : Nat
  avgSaturation : ℚ
  avgBrightness : ℚ
  speciesPick : Nat
  deriving Repr, DecidableEq

/-- The confidence literal hard-coded into the YOLO call of
`detect_objects` (line 337): `self.yolo_model(image, conf=0.3, ...)`. -/
def yolo_conf_threshold : ℚ := 3 / 10

/-- The filtering and per-box assembly of `SimpleAIDetector.detect_objects`
(lines 318-412), producing the `results['detections']` list: every raw YOLO
box whose class name is a key of `target_classes` becomes a detection
record (bird boxes get a `species` from `analyze_bird_features` of their
crop); every other box is dropped.  No confidence comparison appears in
this code — the only confidence filtering is the `conf=0.3` given to the
external YOLO call.  The dog-identity enrichment and the derived boolean
flags of `results` are not read by any embedded claim path and are
elided. -/
def detect_objects (raw : List RawBox) : List Detection :=
  raw.filterMap (fun b =>
    if (pyGet target_classes b.cls).isSome then
      some
        { cls := b.cls
          confidence := b.conf
          species :=
            if b.cls = "bird" then
              some (analyze_bird_features b.regionEmpty b.area b.dominantHue
                b.avgSaturation b.avgBrightness b.speciesPick)
            else none }
    else none)

/-- The `ai_confidence_threshold` entry of the `default_config` dictionary
of `MonitoringSystemWithStats.load_config`
(`main_monitor_with_stats.py` line 39). -/
def ai_confidence_threshold_default : ℚ := 3 / 10

/-- `load_config` for the `ai_confidence_threshold` key (lines 33-63):
`default_config.update(user_config)` keeps the default when the user file
has no such key and takes the user's value otherwise.  `load_config` is the
only place this setting is read — it is never passed on to the detector. -/
def load_config_ai_threshold (user : Option ℚ) : ℚ :=
  user.getD ai_confidence_threshold_default

/-- A concrete persisted store carrying history in every field: one prior
detection with its confidence sample, hourly bucket, daily bucket and log
entry. -/
def savedRich : SavedStore :=
  { totalMotionEvents := 1
    totalDetections := 1
    detectionsByType := [("person", 1), ("dog", 0), ("bird", 0)]
    birdSpecies := [("Crow", 1)]
    confidenceStats := ⟨[9 / 10], [], []⟩
    hourlyStats := [(5, ⟨1, 0, 0⟩)]
    dailyStats := [(0, ⟨1, 0, 0⟩)]
    detectionLog := [⟨5, "person", 9 / 10, none⟩] }

/-- A concrete detection event whose middle detection carries the class
`cat`, which is outside the key set of `detections_by_type`. -/
def evCat : Event :=
  ⟨0, [⟨"person", 9 / 10, none⟩, ⟨"cat", 8 / 10, none⟩,
       ⟨"dog", 7 / 10, none⟩]⟩

/-!  ## Helper lemmas about the dictionary model and the aggregator  -/

/-- Reading a key just written. -/
theorem pyGet_pySet_self {κ α : Type} [DecidableEq κ]
    (l : List (κ × α)) (k : κ) (v : α) : pyGet (pySet l k v) k = some v := by
  induction l with
  | nil => simp [pyGet, pySet]
  | cons kv t ih =>
      by_cases h : kv.1 = k
      · simp [pySet, pyGet, h]
      · cases kv with
        | mk k0 v0 =>
            simp only at h
            simp [pySet, pyGet, h, ih]

/-- Writing a key that is absent appends the binding at the end. -/
theorem pySet_of_not_mem {κ α : Type} [DecidableEq κ]
    (l : List (κ × α)) (k : κ) (v : α) (h : ∀ kv ∈ l, kv.1 ≠ k) :
    pySet l k v = l ++ [(k, v)] := by
  induction l with
  | nil => simp [pySet]
  | cons kv t ih =>
      have hk : kv.1 ≠ k := h kv (by simp)
      cases kv with
      | mk k0 v0 =>
          simp only at hk
          simp only [pySet, if_neg hk]
          rw [ih fun kv hkv => h kv (by simp [hkv])]
          exact (List.cons_append _ _ _).symm

/-- Evaluating `sumClasses` on the canonical three-binding dictionary. -/
theorem sumClasses_shape (a b c : Nat) :
    sumClasses [("person", a), ("dog", b), ("bird", c)] = a + b + c := by
  simp [sumClasses, pyGet]

/-- A successful per-type lookup pins the class to the fixed interest
set. -/
theorem pyGet_shape_mem (a b c v : Nat) (cls : String)
    (h : pyGet [("person", a), ("dog", b), ("bird", c)] cls = some v) :
    cls ∈ (["person", "dog", "bird"] : List String) := by
  simp only [pyGet] at h
  by_cases h1 : ("person" : String) = cls
  · simp [← h1]
  · by_cases h2 : ("dog" : String) = cls
    · simp [← h2]
    · by_cases h3 : ("bird" : String) = cls
      · simp [← h3]
      · rw [if_neg h1, if_neg h2, if_neg h3] at h
        cases h

/-- `recordOne` on a class outside `detections_by_type`: the `KeyError`
fires before any mutation. -/
theorem recordOne_of_none (n : Nat) (st : Stats) (d : Detection)
    (h : pyGet st.detectionsByType d.cls = none) :
    recordOne n st d = (st, some ("KeyError: " ++ d.cls)) := by
  simp [recordOne, h]

/-- `recordOne` on a class inside `detections_by_type`: the per-type counter
and the total advance together and the iteration completes. -/
theorem recordOne_of_some (n : Nat) (st : Stats) (d : Detection) (c : Nat)
    (h : pyGet st.detectionsByType d.cls = some c) :
    (recordOne n st d).1.detectionsByType =
        pySet st.detectionsByType d.cls (c + 1) ∧
      (recordOne n st d).1.totalDetections = st.totalDetections + 1 ∧
      (recordOne n st d).2 = none := by
  simp [recordOne, h]

/-- Incrementing one of the three canonical bindings keeps the canonical
shape. -/
theorem byTypeShape_pySet (a b c v : Nat) (cls : String)
    (h : cls ∈ (["person", "dog", "bird"] : List String)) :
    byTypeShape (pySet [("person", a), ("dog", b), ("bird", c)] cls v) := by
  simp only [List.mem_cons, List.mem_singleton] at h
  rcases h with h | h | h | h
  · exact ⟨v, b, c, by simp [h, pySet]⟩
  · exact ⟨a, v, c, by simp [h, pySet]⟩
  · exact ⟨a, b, v, by simp [h, pySet]⟩
  · cases h

/-- `recordOne` keeps the canonical shape of `detections_by_type`. -/
theorem recordOne_shape (n : Nat) (st : Stats) (d : Detection)
    (hWF : byTypeShape st.detectionsByType) :
    byTypeShape (recordOne n st d).1.detectionsByType := by
  obtain ⟨a, b, c, hsh⟩ := hWF
  cases hg : pyGet st.detectionsByType d.cls with
  | none => rw [recordOne_of_none n st d hg]; exact ⟨a, b, c, hsh⟩
  | some v =>
      have h1 := (recordOne_of_some n st d v hg).1
      rw [h1, hsh]
      exact byTypeShape_pySet a b c (v + 1) d.cls
        (pyGet_shape_mem a b c v d.cls (hsh ▸ hg))

/-- `recordOne` preserves the counter invariant: the per-type increment and
the total increment land together, and a `KeyError` for an unknown class
fires before either happens. -/
theorem recordOne_inv (n : Nat) (st : Stats) (d : Detection)
    (hWF : byTypeShape st.detectionsByType) (hinv : statsInv st) :
    statsInv (recordOne n st d).1 := by
  obtain ⟨a, b, c, hsh⟩ := hWF
  cases hg : pyGet st.detectionsByType d.cls with
  | none => rw [recordOne_of_none n st d hg]; exact hinv
  | some v =>
      obtain ⟨h1, h2, _⟩ := recordOne_of_some n st d v hg
      have hmem := pyGet_shape_mem a b c v d.cls (hsh ▸ hg)
      have htot : st.totalDetections = a + b + c := by
        rw [hinv, hsh, sumClasses_shape]
      unfold statsInv
      rw [h2, h1, hsh, htot]
      simp only [List.mem_cons, List.mem_singleton] at hmem
      rcases hmem with h | h | h | h
      · rw [hsh, h] at hg
        simp [pyGet] at hg
        simp [h, pySet, sumClasses, pyGet]
        omega
      · rw [hsh, h] at hg
        simp [pyGet] at hg
        simp [h, pySet, sumClasses, pyGet]
        omega
      · rw [hsh, h] at hg
        simp [pyGet] at hg
        simp [h, pySet, sumClasses, pyGet]
        omega
      · cases h

/-- The detection loop keeps the canonical shape and the counter
invariant. -/
theorem recordLoop_shape_inv (n : Nat) :
    ∀ (ds : List Detection) (st : Stats),
      byTypeShape st.detectionsByType → statsInv st →
      byTypeShape (recordLoop n st ds).1.detectionsByType ∧
        statsInv (recordLoop n st ds).1 := by
  intro ds
  induction ds with
  | nil => intro st h1 h2; exact ⟨h1, h2⟩
  | cons d rest ih =>
      intro st h1 h2
      have hsh := recordOne_shape n st d h1
      have hin := recordOne_inv n st d h1 h2
      rcases hr : recordOne n st d with ⟨st', e⟩
      rw [hr] at hsh hin
      cases e with
      | none => simpa [recordLoop, hr] using ih st' hsh hin
      | some msg => simpa [recordLoop, hr] using ⟨hsh, hin⟩

/-- `record_detection` returns the final state of the detection loop,
whether or not the loop completed and whether or not the save landed. -/
theorem record_detection_state (n : Nat) (st : Stats) (ev : Event)
    (ok : Bool) :
    (record_detection n st ev ok).state = (recordLoop n st ev.detections).1 := by
  rcases h : recordLoop n st ev.detections with ⟨st', e⟩
  cases e <;> simp [record_detection, h]

/-- `record_detection` surfaces exactly the loop's exception. -/
theorem record_detection_err (n : Nat) (st : Stats) (ev : Event)
    (ok : Bool) :
    (record_detection n st ev ok).err = (recordLoop n st ev.detections).2 := by
  rcases h : recordLoop n st ev.detections with ⟨st', e⟩
  cases e <;> simp [record_detection, h]

/-- Every aggregator call keeps the canonical shape and the counter
invariant of the in-memory state. -/
theorem applyOp_shape_inv (st : Stats) (op : StatsOp)
    (h1 : byTypeShape st.detectionsByType) (h2 : statsInv st) :
    byTypeShape (applyOp st op).detectionsByType ∧ statsInv (applyOp st op) := by
  cases op with
  | det n ev ok =>
      rw [applyOp, record_detection_state]
      exact recordLoop_shape_inv n ev.detections st h1 h2
  | motion ok =>
      constructor
      · simpa [applyOp, record_motion_event, byTypeShape] using h1
      · simpa [applyOp, record_motion_event, statsInv] using h2

/-- Any sequence of aggregator calls keeps the canonical shape and the
counter invariant. -/
theorem runOps_shape_inv (ops : List StatsOp) :
    ∀ st : Stats, byTypeShape st.detectionsByType → statsInv st →
      byTypeShape (runOps st ops).detectionsByType ∧ statsInv (runOps st ops) := by
  induction ops with
  | nil => intro st h1 h2; exact ⟨h1, h2⟩
  | cons op rest ih =>
      intro st h1 h2
      have hstep := applyOp_shape_inv st op h1 h2
      simpa [runOps] using ih (applyOp st op) hstep.1 hstep.2

/-- Construction (`__init__` + `load_stats`) yields a state with the
canonical shape and the counter invariant, for a missing stats file as well
as for any well-formed persisted store. -/
theorem init_shape_inv (saved : Option SavedStore) (h : SavedOK saved) :
    byTypeShape (init_stats saved).detectionsByType ∧
      statsInv (init_stats saved) := by
  cases saved with
  | none =>
      exact ⟨⟨0, 0, 0, rfl⟩, by simp [init_stats, load_stats, freshStats,
        statsInv, sumClasses, pyGet]⟩
  | some s =>
      obtain ⟨⟨a, b, c, hsh⟩, htot⟩ := h
      have hload : (init_stats (some s)).detectionsByType =
          [("person", a), ("dog", b), ("bird", c)] := by
        simp [init_stats, load_stats, freshStats, hsh, pyUpdate, pySet]
      refine ⟨⟨a, b, c, hload⟩, ?_⟩
      unfold statsInv
      rw [hload]
      have : (init_stats (some s)).totalDetections = s.totalDetections := by
        simp [init_stats, load_stats]
      rw [this, htot, hsh]

/-- A valid class makes `recordOne` complete (no `KeyError`). -/
theorem recordOne_ok (n : Nat) (st : Stats) (d : Detection)
    (hWF : byTypeShape st.detectionsByType)
    (hmem : d.cls ∈ (["person", "dog", "bird"] : List String)) :
    (recordOne n st d).2 = none := by
  obtain ⟨a, b, c, hsh⟩ := hWF
  have hv : ∃ v, pyGet st.detectionsByType d.cls = some v := by
    rw [hsh]
    simp only [List.mem_cons, List.mem_singleton] at hmem
    rcases hmem with h | h | h | h
    · exact ⟨a, by simp [h, pyGet]⟩
    · exact ⟨b, by simp [h, pyGet]⟩
    · exact ⟨c, by simp [h, pyGet]⟩
    · cases h
  obtain ⟨v, hv⟩ := hv
  exact (recordOne_of_some n st d v hv).2.2

/-- The detection loop completes when every class is in the fixed interest
set. -/
theorem recordLoop_ok (n : Nat) :
    ∀ (ds : List Detection) (st : Stats),
      byTypeShape st.detectionsByType →
      (∀ d ∈ ds, d.cls ∈ (["person", "dog", "bird"] : List String)) →
      (recordLoop n st ds).2 = none := by
  intro ds
  induction ds with
  | nil => intro st _ _; rfl
  | cons d rest ih =>
      intro st hWF hval
      have h1 := recordOne_ok n st d hWF (hval d (by simp))
      have hsh := recordOne_shape n st d hWF
      rcases hr : recordOne n st d with ⟨st', e⟩
      rw [hr] at h1 hsh
      cases e with
      | none =>
          simpa [recordLoop, hr] using
            ih st' hsh fun d hd => hval d (by simp [hd])
      | some msg => simp at h1

/-- Update with pairwise-fresh keys appends the source bindings in
order. -/
theorem pyUpdate_append {κ α : Type} [DecidableEq κ] (src : List (κ × α)) :
    ∀ acc : List (κ × α), (src.map Prod.fst).Nodup →
      (∀ kv ∈ src, ∀ kv2 ∈ acc, kv2.1 ≠ kv.1) →
      pyUpdate acc src = acc ++ src := by
  induction src with
  | nil => intro acc _ _; simp [pyUpdate]
  | cons x t ih =>
      intro acc hnd hdis
      have hx : pySet acc x.1 x.2 = acc ++ [x] :=
        pySet_of_not_mem acc x.1 x.2 fun kv hkv => hdis x (by simp) kv hkv
      have hstep : pyUpdate acc (x :: t) = pyUpdate (acc ++ [x]) t := by
        simp [pyUpdate, hx]
      rw [hstep]
      have hcons : x.1 ∉ t.map Prod.fst ∧ (t.map Prod.fst).Nodup := by
        have h := hnd
        rw [List.map_cons, List.nodup_cons] at h
        exact h
      have hnd' : (t.map Prod.fst).Nodup := hcons.2
      have hx1 : x.1 ∉ t.map Prod.fst := hcons.1
      have hdis' : ∀ kv ∈ t, ∀ kv2 ∈ acc ++ [x], kv2.1 ≠ kv.1 := by
        intro kv hkv kv2 hkv2
        rcases List.mem_append.mp hkv2 with h | h
        · exact hdis kv (by simp [hkv]) kv2 h
        · rcases List.mem_singleton.mp h with rfl
          intro hcontra
          exact hx1 (hcontra ▸ List.mem_map_of_mem Prod.fst hkv)
      rw [ih (acc ++ [x]) hnd' hdis']
      simp

/-!  ## Claims  -/

/-- Claim C1: after any sequence of `record_detection` and
`record_motion_event` calls, starting from a fresh or a loaded
`DetectionStats` state, the total detection counter equals the sum of the
per-class counters `person + dog + bird`. -/
theorem C1_total_equals_class_counter_sum (saved : Option SavedStore)
    (h : SavedOK saved) (ops : List StatsOp) :
    (runOps (init_stats saved) ops).totalDetections =
      sumClasses (runOps (init_stats saved) ops).detectionsByType := by
  have h0 := init_shape_inv saved h
  exact (runOps_shape_inv ops (init_stats saved) h0.1 h0.2).2

/-- Witness for C1 at a concrete fresh start and call sequence. -/
theorem C1_witness :
    (runOps (init_stats none)
        [.det 5 ⟨5, [⟨"person", 9 / 10, none⟩]⟩ true,
         .motion true]).totalDetections =
      sumClasses (runOps (init_stats none)
        [.det 5 ⟨5, [⟨"person", 9 / 10, none⟩]⟩ true,
         .motion true]).detectionsByType :=
  C1_total_equals_class_counter_sum none trivial
    [.det 5 ⟨5, [⟨"person", 9 / 10, none⟩]⟩ true, .motion true]

/-- Claim C4 (the code contradicts it): `record_detection` keys the hourly
and daily buckets off the `datetime.now()` wall clock read when the call
executes (line 95/110/114), not off the event's own `timestamp` field.
Recording an event that itself carries hour 10 while the wall clock stands
at hour 20 buckets the detection under hour 20; hour 10 gets no bucket. -/
theorem C4_buckets_keyed_by_wall_clock :
    (record_detection 20 freshStats ⟨10, [⟨"bird", 9 / 10, some "Crow"⟩]⟩
          true).state.hourlyStats = [(20, ⟨0, 0, 1⟩)] ∧
      pyGet (record_detection 20 freshStats
          ⟨10, [⟨"bird", 9 / 10, some "Crow"⟩]⟩ true).state.hourlyStats 10 =
        none :=
  ⟨rfl, rfl⟩

/-- Counterexample to claim C5: loading `savedRich` drops its hourly
history (and, as `C5_amended_load_restores_only_counters` shows, also the
daily buckets, the confidence samples and the log). -/
theorem C5_counterexample :
    (init_stats (some savedRich)).hourlyStats ≠ savedRich.hourlyStats := by
  decide

/-- Claim C5 as amended: construction restores the per-class counters, the
species counts and the two totals from the persisted store (onto the
all-zero fresh baseline, so the overwrite coincides with an additive
merge), but the confidence samples, the hourly and daily buckets and the
recent log are not restored — they restart empty. -/
theorem C5_amended_load_restores_only_counters (s : SavedStore)
    (hshape : byTypeShape s.detectionsByType)
    (hnd : (s.birdSpecies.map Prod.fst).Nodup) :
    (init_stats (some s)).detectionsByType = s.detectionsByType ∧
      (init_stats (some s)).birdSpecies = s.birdSpecies ∧
      (init_stats (some s)).totalMotionEvents = s.totalMotionEvents ∧
      (init_stats (some s)).totalDetections = s.totalDetections ∧
      (init_stats (some s)).confidenceStats = ⟨[], [], []⟩ ∧
      (init_stats (some s)).hourlyStats = [] ∧
      (init_stats (some s)).dailyStats = [] ∧
      (init_stats (some s)).detectionLog = [] := by
  obtain ⟨a, b, c, hsh⟩ := hshape
  refine ⟨?_, ?_, rfl, rfl, rfl, rfl, rfl, rfl⟩
  · simp [init_stats, load_stats, freshStats, hsh, pyUpdate, pySet]
  · have h := pyUpdate_append s.birdSpecies [] hnd (by simp)
    simpa [init_stats, load_stats, freshStats] using h

/-- Witness for the amended C5 at the concrete store `savedRich`. -/
theorem C5_witness :
    (init_stats (some savedRich)).detectionsByType =
        savedRich.detectionsByType ∧
      (init_stats (some savedRich)).birdSpecies = savedRich.birdSpecies ∧
      (init_stats (some savedRich)).hourlyStats = [] :=
  have h := C5_amended_load_restores_only_counters savedRich
    ⟨1, 0, 0, rfl⟩ (by decide)
  ⟨h.1, h.2.1, h.2.2.2.2.2.1⟩

/-- Counterexample to claim C6: there is no warm-up.  On the very first
frame after initialization a single large foreground contour makes
`detect_motion` return `True`, and the monitoring loop records the trigger
— the motion signal is not discarded during any initial period. -/
theorem C6_counterexample_no_warmup :
    detect_motion 5000 (some [6000]) = true ∧
      (monitorRun 5000 2 [⟨3, some [6000]⟩]).2 = [3] := by
  constructor
  · rfl
  · simp [monitorRun, monitorStep, detect_motion]
    norm_num

/-- Claim C6 as amended: `MotionDetector` implements no
`Uninitialized → Warming → Armed` state machine.  `detect_motion` is
effectively stateless — it returns `True` exactly when the frame analysis
succeeded and produced some contour larger than `min_area`, regardless of
how many frames have been processed, and neither `__init__` nor the camera
reconfiguration in `capture_high_res_image` ever discards or resets the
motion signal. -/
theorem C6_amended_stateless_motion_signal (min_area : ℚ)
    (fa : Option (List ℚ)) :
    detect_motion min_area fa = true ↔
      ∃ areas, fa = some areas ∧ ∃ a ∈ areas, min_area < a := by
  cases fa with
  | none => simp [detect_motion]
  | some areas => simp [detect_motion]

/-- Claim C7: a non-empty bird crop with bounding-box area above 40000 and
a dark-dominant histogram (average brightness below 80) is classified into
the `large_dark` rule list `{Crow, Raven, Blackbird}`, and with the random
draw fixed the outcome is the deterministic pick from that list. -/
theorem C7_large_dark_bird_species (area : ℚ) (hue : Nat) (sat bright : ℚ)
    (pick : Nat) (harea : 40000 < area) (hbright : bright < 80) :
    analyze_bird_features false area hue sat bright pick =
        ["Crow", "Raven", "Blackbird"].getD (pick % 3) "Unknown" ∧
      analyze_bird_features false area hue sat bright pick ∈
        (["Crow", "Raven", "Blackbird"] : List String) := by
  have hres : analyze_bird_features false area hue sat bright pick =
      npChoice pick ["Crow", "Raven", "Blackbird"] := by
    simp [analyze_bird_features, harea, hbright, bird_species_rules, pyGet]
  have h3 : pick % 3 < 3 := Nat.mod_lt _ (by norm_num)
  constructor
  · rw [hres]; rfl
  · rw [hres]
    rcases hm : pick % 3 with _ | _ | _ | m
    · simp [npChoice, hm]
    · simp [npChoice, hm]
    · simp [npChoice, hm]
    · omega

/-- Witness for C7 at area 50000, brightness 50 and draw index 1. -/
theorem C7_witness :
    analyze_bird_features false 50000 0 0 50 1 = "Raven" ∧
      analyze_bird_features false 50000 0 0 50 1 ∈
        (["Crow", "Raven", "Blackbird"] : List String) := by
  have h := C7_large_dark_bird_species 50000 0 0 50 1 (by norm_num)
    (by norm_num)
  exact ⟨by rw [h.1]; rfl, h.2⟩

/-- Counterexample to claim C8: the configured `ai_confidence_threshold`
is never applied.  With the user configuring 0.9, a person candidate at
confidence 0.5 — which passes the hard-coded `conf=0.3` given to the YOLO
call — survives into the detection list below the configured threshold. -/
theorem C8_counterexample_configured_threshold_ignored :
    load_config_ai_threshold (some (9 / 10)) = 9 / 10 ∧
      yolo_conf_threshold ≤ 1 / 2 ∧
      detect_objects [⟨"person", 1 / 2, true, 0, 0, 0, 0, 0⟩] =
        [⟨"person", 1 / 2, none⟩] ∧
      ∃ d ∈ detect_objects [⟨"person", 1 / 2, true, 0, 0, 0, 0, 0⟩],
        d.confidence < load_config_ai_threshold (some (9 / 10)) := by
  refine ⟨rfl, by norm_num [yolo_conf_threshold], rfl, ?_⟩
  refine ⟨⟨"person", 1 / 2, none⟩, ?_, ?_⟩
  · have h : detect_objects [⟨"person", 1 / 2, true, 0, 0, 0, 0, 0⟩] =
        [⟨"person", 1 / 2, none⟩] := rfl
    rw [h]
    exact List.mem_singleton.mpr rfl
  · norm_num [load_config_ai_threshold, ai_confidence_threshold_default]

/-- Claim C8 as amended: every detection returned by `detect_objects` has
its class inside the fixed interest set; its confidence is whatever the
external YOLO call returned, so it is bounded below by the hard-coded
`conf=0.3` — not by the configured `ai_confidence_threshold`, which is
loaded but never consulted. -/
theorem C8_amended_class_filter_only (raw : List RawBox) :
    (∀ d ∈ detect_objects raw,
        d.cls ∈ (["person", "dog", "bird"] : List String)) ∧
      ((∀ b ∈ raw, yolo_conf_threshold ≤ b.conf) →
        ∀ d ∈ detect_objects raw, yolo_conf_threshold ≤ d.confidence) := by
  constructor
  · intro d hd
    simp only [detect_objects, List.mem_filterMap] at hd
    obtain ⟨b, hb, hfb⟩ := hd
    split at hfb
    · obtain ⟨v, hv⟩ := Option.isSome_iff_exists.mp (by assumption)
      have hd' := Option.some.inj hfb
      have : d.cls = b.cls := by rw [← hd']
      rw [this]
      exact pyGet_shape_mem 0 16 14 v b.cls hv
    · cases hfb
  · intro hconf d hd
    simp only [detect_objects, List.mem_filterMap] at hd
    obtain ⟨b, hb, hfb⟩ := hd
    split at hfb
    · have hd' := Option.some.inj hfb
      have : d.confidence = b.conf := by rw [← hd']
      rw [this]
      exact hconf b hb
    · cases hfb

/-- Witness for the amended C8: the surviving person detection of a
concrete raw batch has its class in the interest set. -/
theorem C8_witness :
    Detection.cls ⟨"person", 1 / 2, none⟩ ∈
      (["person", "dog", "bird"] : List String) :=
  (C8_amended_class_filter_only [⟨"person", 1 / 2, true, 0, 0, 0, 0, 0⟩]).1
    ⟨"person", 1 / 2, none⟩
    (by
      have h : detect_objects [⟨"person", 1 / 2, true, 0, 0, 0, 0, 0⟩] =
          [⟨"person", 1 / 2, none⟩] := rfl
      rw [h]
      exact List.mem_singleton.mpr rfl)

/-- Claim C9: a failed synchronous persist is non-fatal.  The in-memory
mutation is retained exactly as on a successful save (no rollback), no
exception reaches the caller (the error component is independent of the
disk outcome), nothing is written, and the next mutation attempts its
write normally. -/
theorem C9_persist_failure_nonfatal (st : Stats) (n : Nat) (ev : Event) :
    ((record_motion_event st false).1 = (record_motion_event st true).1 ∧
        (record_motion_event st false).2 = none ∧
        (record_motion_event (record_motion_event st false).1 true).2 =
          some (save_stats
            (record_motion_event (record_motion_event st false).1 true).1)) ∧
      (record_detection n st ev false).state =
          (record_detection n st ev true).state ∧
        (record_detection n st ev false).err =
          (record_detection n st ev true).err ∧
        (record_detection n st ev false).written = none := by
  refine ⟨⟨rfl, rfl, rfl⟩, ?_, ?_, ?_⟩
  · rw [record_detection_state, record_detection_state]
  · rw [record_detection_err, record_detection_err]
  · rcases h : recordLoop n st ev.detections with ⟨st', e⟩
    cases e <;> simp [record_detection, h]

/-- Claim C10: `record_detection` completes without raising whenever every
detection's class is `person`, `dog` or `bird`; a detection with any other
class raises an uncaught `KeyError` part-way through the loop — in the
concrete run, the `person` before the `cat` is already counted in memory
(per-type counter and total both 1), the `dog` after it is not, and
nothing is persisted. -/
theorem C10_keyerror_on_unknown_class :
    (∀ (n : Nat) (st : Stats) (ev : Event) (ok : Bool),
        byTypeShape st.detectionsByType →
        (∀ d ∈ ev.detections,
          d.cls ∈ (["person", "dog", "bird"] : List String)) →
        (record_detection n st ev ok).err = none) ∧
      (record_detection 0 freshStats evCat true).err =
          some "KeyError: cat" ∧
        (record_detection 0 freshStats evCat true).state.detectionsByType =
          [("person", 1), ("dog", 0), ("bird", 0)] ∧
        (record_detection 0 freshStats evCat true).state.totalDetections = 1 ∧
        (record_detection 0 freshStats evCat true).written = none := by
  refine ⟨?_, rfl, rfl, rfl, rfl⟩
  intro n st ev ok hWF hval
  rw [record_detection_err]
  exact recordLoop_ok n ev.detections st hWF hval

/-- Prepending a smaller head keeps a `≤`-chain a chain. -/
theorem chain_le_of_le {a b : ℚ} (l : List ℚ) (hab : a ≤ b)
    (h : List.Chain (fun x y => x ≤ y) b l) :
    List.Chain (fun x y => x ≤ y) a l := by
  cases l with
  | nil => exact List.Chain.nil
  | cons c t =>
      rw [List.chain_cons] at h ⊢
      exact ⟨le_trans hab h.1, h.2⟩

/-- Loop invariant of `_monitor_loop`: with a nondecreasing clock, the
recorded trigger timestamps stay strictly separated by more than the
cooldown. -/
theorem monitor_pairwise (min_area cooldown : ℚ) (hc : 0 ≤ cooldown) :
    ∀ (frames : List Frame) (last : ℚ) (rec : List ℚ),
      List.Chain (fun x y => x ≤ y) last (frames.map Frame.time) →
      rec.Pairwise (fun x y => x + cooldown < y) →
      (∀ x ∈ rec, x ≤ last) →
      (frames.foldl (monitorStep min_area cooldown) (last, rec)).2.Pairwise
        (fun x y => x + cooldown < y) := by
  intro frames
  induction frames with
  | nil => intro last rec _ hp _; simpa using hp
  | cons f fs ih =>
      intro last rec hchain hp hle
      rw [List.map_cons, List.chain_cons] at hchain
      obtain ⟨hlf, hchain'⟩ := hchain
      rw [List.foldl_cons]
      by_cases hm : detect_motion min_area f.analysis
      · by_cases ht : f.time - last > cooldown
        · have hstep : monitorStep min_area cooldown (last, rec) f =
              (f.time, rec ++ [f.time]) := by
            simp [monitorStep, hm, ht]
          rw [hstep]
          apply ih f.time (rec ++ [f.time]) hchain'
          · rw [List.pairwise_append]
            refine ⟨hp, List.pairwise_singleton _ _, ?_⟩
            intro x hx y hy
            rw [List.mem_singleton] at hy
            subst hy
            have hxl := hle x hx
            have hcool : cooldown < f.time - last := ht
            linarith
          · intro x hx
            rcases List.mem_append.mp hx with h | h
            · have hxl := hle x h
              have hcool : cooldown < f.time - last := ht
              linarith
            · rw [List.mem_singleton] at h
              subst h
              exact le_refl _
        · have hstep : monitorStep min_area cooldown (last, rec) f =
              (last, rec) := by
            simp [monitorStep, hm, ht]
          rw [hstep]
          exact ih last rec (chain_le_of_le _ hlf hchain') hp hle
      · have hstep : monitorStep min_area cooldown (last, rec) f =
            (last, rec) := by
          simp [monitorStep, hm]
        rw [hstep]
        exact ih last rec (chain_le_of_le _ hlf hchain') hp hle

/-- Claim C2: over any frame sequence with a nonnegative, nondecreasing
clock and a nonnegative configured cooldown, no two distinct recorded
trigger timestamps differ by less than the cooldown duration (successive
triggers are in fact separated by strictly more than it). -/
theorem C2_triggers_separated_by_cooldown (min_area cooldown : ℚ)
    (frames : List Frame) (hc : 0 ≤ cooldown)
    (hclock : List.Chain (fun x y => x ≤ y) 0 (frames.map Frame.time)) :
    ∀ t1 ∈ (monitorRun min_area cooldown frames).2,
      ∀ t2 ∈ (monitorRun min_area cooldown frames).2,
        t1 ≠ t2 → cooldown ≤ |t1 - t2| := by
  have hp := monitor_pairwise min_area cooldown hc frames 0 []
    hclock List.Pairwise.nil (by simp)
  have hp' : (monitorRun min_area cooldown frames).2.Pairwise
      (fun x y => cooldown ≤ |x - y|) := by
    refine List.Pairwise.imp ?_ hp
    intro x y h
    have hxy : 0 < y - x := by linarith
    rw [abs_sub_comm, abs_of_pos hxy]
    linarith
  have hsymm : Symmetric (fun x y : ℚ => cooldown ≤ |x - y|) := by
    intro x y h
    rwa [abs_sub_comm] at h
  intro t1 h1 t2 h2 hne
  exact hp'.forall hsymm h1 h2 hne

/-- Witness for C2: a concrete three-frame run with cooldown 2 records
triggers at times 3 and 6 (the frame at time 4 is suppressed), which are at
least the cooldown apart. -/
theorem C2_witness : (2 : ℚ) ≤ |(3 : ℚ) - 6| := by
  have hrec : (monitorRun 5000 2
      [⟨3, some [6000]⟩, ⟨4, some [6000]⟩, ⟨6, some [6000]⟩]).2 = [3, 6] := by
    simp [monitorRun, monitorStep, detect_motion]
    norm_num
  refine C2_triggers_separated_by_cooldown 5000 2
    [⟨3, some [6000]⟩, ⟨4, some [6000]⟩, ⟨6, some [6000]⟩]
    (by norm_num) ?_ 3 ?_ 6 ?_ (by norm_num)
  · rw [List.map_cons, List.chain_cons]
    refine ⟨by norm_num, ?_⟩
    rw [List.map_cons, List.chain_cons]
    refine ⟨by norm_num, ?_⟩
    rw [List.map_cons, List.chain_cons]
    exact ⟨by norm_num, List.Chain.nil⟩
  · rw [hrec]; simp
  · rw [hrec]; simp

/-- Unfolding one step of the `range(hours)` loop of
`get_hourly_breakdown`. -/
theorem breakdown_succ (n now : Nat) (hs : List (Nat × ClassCounts)) :
    get_hourly_breakdown (n + 1) now hs =
      pySet (get_hourly_breakdown n now hs) ((now - n) % 24)
        ((pyGet hs (now - n)).getD zeroCounts) := by
  unfold get_hourly_breakdown
  rw [List.range_succ, List.foldl_append, List.foldl_cons, List.foldl_nil]

/-- Two distinct offsets inside a window of at most 24 hours produce
distinct `%H:00` labels. -/
theorem label_ne (i n now : Nat) (hi : i < n) (hn24 : n < 24)
    (hnn : n ≤ now) : (now - i) % 24 ≠ (now - n) % 24 := by
  omega

/-- For a window of at most 24 hours the breakdown dictionary is exactly
the reverse-chronological listing of the last `n` hours: entry `i` is the
bucket of absolute hour `now - i` under its `%H:00` label. -/
theorem breakdown_eq_map (hs : List (Nat × ClassCounts)) :
    ∀ (n now : Nat), n ≤ 24 → n ≤ now + 1 →
      get_hourly_breakdown n now hs =
        (List.range n).map
          (fun i => ((now - i) % 24, (pyGet hs (now - i)).getD zeroCounts)) := by
  intro n
  induction n with
  | zero => intro now _ _; rfl
  | succ n ih =>
      intro now h24 hnow
      have hn24 : n < 24 := lt_of_lt_of_le (Nat.lt_succ_self n) h24
      have hnn : n ≤ now := by omega
      rw [breakdown_succ, ih now (by omega) (by omega)]
      rw [pySet_of_not_mem]
      · rw [List.range_succ, List.map_append]
        rfl
      · intro kv hkv
        simp only [List.mem_map, List.mem_range] at hkv
        obtain ⟨i, hi, hkv⟩ := hkv
        rw [← hkv]
        exact label_ne i n now hi hn24 hnn

/-- Counterexample to claim C3: asking for a 25-hour window makes two
offsets share the `%H:00` label, so the breakdown dictionary has only 24
buckets, not 25. -/
theorem C3_counterexample :
    ¬ (get_hourly_breakdown 25 100 []).length = 25 := by
  decide

/-- Claim C3 as amended: for every `n ≤ 24` (and a clock at least `n - 1`
hours past the epoch of the embedding), `get_hourly_breakdown` returns
exactly `n` buckets whose insertion (= iteration) order is strictly
reverse-chronological relative to now — entry `i` is the bucket of absolute
hour `now - i` under its `%H:00` label, the current hour first, also when
the window spans midnight; the order is the dictionary's insertion order,
not lexicographic order on the label. -/
theorem C3_breakdown_reverse_chronological (hs : List (Nat × ClassCounts))
    (n now : Nat) (h24 : n ≤ 24) (hnow : n ≤ now + 1) :
    (get_hourly_breakdown n now hs).length = n ∧
      ∀ i, i < n →
        (get_hourly_breakdown n now hs)[i]? =
          some ((now - i) % 24, (pyGet hs (now - i)).getD zeroCounts) := by
  rw [breakdown_eq_map hs n now h24 hnow]
  constructor
  · simp
  · intro i hi
    rw [List.getElem?_map, List.getElem?_range hi]
    rfl

/-- Witness for the amended C3: a two-hour window just past midnight (hour
100 is 4 o'clock, hour 99 is 3 o'clock). -/
theorem C3_witness :
    (get_hourly_breakdown 2 100 [(99, ⟨1, 2, 3⟩)]).length = 2 ∧
      (get_hourly_breakdown 2 100 [(99, ⟨1, 2, 3⟩)])[1]? =
        some (3, ⟨1, 2, 3⟩) :=
  have h := C3_breakdown_reverse_chronological [(99, ⟨1, 2, 3⟩)] 2 100
    (by norm_num) (by norm_num)
  ⟨h.1, by rw [h.2 1 (by norm_num)]; rfl⟩

/-- Witness for C10: a valid one-bird event records without raising. -/
theorem C10_witness :
    (record_detection 7 freshStats ⟨7, [⟨"bird", 3 / 4, some "Crow"⟩]⟩
        true).err = none :=
  C10_keyerror_on_unknown_class.1 7 freshStats
    ⟨7, [⟨"bird", 3 / 4, some "Crow"⟩]⟩ true ⟨0, 0, 0, rfl⟩
    (by
      intro d hd
      rw [List.mem_singleton] at hd
      subst hd
      simp)

end BirdWatcher
